import Mathlib

/-!
Shallow embedding of the `slump` Slack-history exporter.

The repository has two source files:
- `src/main.rs`: a self-contained program that pages through the Slack
  `conversations.history` endpoint and streams the messages to stdout as one
  JSON array (`SlackResponse`, `MessageChunk`, `write_message_chunk`,
  `get_message_chunk`, `main`).
- `src/slack.rs`: a factored variant exposing the pages as a fallible
  iterator over messages (`Slack`, `Messages`, `MessageChunk`).

HTTP is modelled by a script: a list of `SlackResponse` values consumed in
request order; each fetch pops the next scripted response and records the
cursor the request carried.  Errors (Rust `anyhow::Error`) are modelled as
their formatted message strings.
-/

namespace Slump

/-- Opaque JSON values, standing in for `serde_json::Value`.  Message bodies
are never inspected by the program, only serialized and passed through. -/
inductive Json where
  | null : Json
  | bool (b : Bool) : Json
  | num (n : Int) : Json
  | str (s : String) : Json
  | arr (xs : List Json) : Json
  | obj (kvs : List (String × Json)) : Json
deriving Repr

/-- Escape a character the way a compact JSON serializer does for the
characters that matter to this development (quote and backslash). -/
def escapeChar (c : Char) : String :=
  if c = '"' then "\\\"" else if c = '\\' then "\\\\" else String.singleton c

/-- Escape a string for inclusion in a JSON document. -/
def escapeString (s : String) : String :=
  String.join (s.toList.map escapeChar)

mutual

/-- Compact JSON serialization, standing in for `serde_json::to_writer`. -/
def Json.render : Json → String
  | .null => "null"
  | .bool b => cond b "true" "false"
  | .num n => toString n
  | .str s => "\"" ++ escapeString s ++ "\""
  | .arr xs => "[" ++ Json.renderItems xs ++ "]"
  | .obj kvs => "\x7b" ++ Json.renderFields kvs ++ "\x7d"

/-- Comma-separated rendering of array elements. -/
def Json.renderItems : List Json → String
  | [] => ""
  | [x] => Json.render x
  | x :: y :: xs => Json.render x ++ "," ++ Json.renderItems (y :: xs)

/-- Comma-separated rendering of object fields. -/
def Json.renderFields : List (String × Json) → String
  | [] => ""
  | [(k, v)] => "\"" ++ escapeString k ++ "\":" ++ Json.render v
  | (k, v) :: f :: fs =>
      "\"" ++ escapeString k ++ "\":" ++ Json.render v ++ "," ++ Json.renderFields (f :: fs)

end

/-- Mirror of `SlackResponseMetadata` in `src/main.rs` (identical to
`ResponseMetadata` in `src/slack.rs`). -/
structure SlackResponseMetadata where
  next_cursor : String

/-- Mirror of `SlackResponse` in `src/main.rs` (identical to `Response` in
`src/slack.rs`).  Serde defaults are reflected in the field types: missing
`messages` decodes to `[]`, missing `has_more` to `false`, and the two
optional fields to `none`. -/
structure SlackResponse where
  ok : Bool
  messages : List Json
  has_more : Bool
  response_metadata : Option SlackResponseMetadata
  error : Option String

/-- Mirror of the `MessageChunk` enum of `src/main.rs`.  The `src/slack.rs`
variant stores a `vec::IntoIter`; we model that iterator by the list of
messages not yet consumed, so the same type serves both files. -/
inductive MessageChunk where
  | nonTerminal (messages : List Json) (next_cursor : String) : MessageChunk
  | terminal (messages : List Json) : MessageChunk

/-- Mirror of `MessageChunk::messages` in `src/main.rs`. -/
def MessageChunk.messages : MessageChunk → List Json
  | .nonTerminal messages _ => messages
  | .terminal messages => messages

/-- Message of the `anyhow` error built at `src/main.rs:63` for an
`ok == false` response (`src/slack.rs:119` is identical). -/
def apiErrorMsg (error : Option String) : String :=
  "Error fetching data from the Slack API: " ++ error.getD "Unknown"

/-- Message of the `anyhow` error built at `src/main.rs:72` when
`has_more == true` but the response carries no metadata (`src/slack.rs:128`
is identical). -/
def missingCursorMsg : String :=
  "Error fetching additional data: Slack API response missing cursor"

/-- Error standing in for a transport failure of `request.send()` when the
script has no response left to serve. -/
def transportErrorMsg : String :=
  "Transport error: no scripted response"

/-- Mirror of `impl TryFrom<SlackResponse> for MessageChunk`
(`src/main.rs:55-87`; `src/slack.rs:111-143` is the same logic). -/
def MessageChunk.tryFrom (response : SlackResponse) : Except String MessageChunk :=
  if !response.ok then
    Except.error (apiErrorMsg response.error)
  else if response.has_more then
    match response.response_metadata with
    | none => Except.error missingCursorMsg
    | some metadata =>
        Except.ok (MessageChunk.nonTerminal response.messages metadata.next_cursor)
  else
    Except.ok (MessageChunk.terminal response.messages)

/-- Whether a chunk matches `MessageChunk::NonTerminal { .. }`. -/
def MessageChunk.isNonTerminal : MessageChunk → Bool
  | .nonTerminal _ _ => true
  | .terminal _ => false

/-- Body of the `while let` loop of `write_message_chunk`
(`src/main.rs:96-102`): serialize each message, and append a comma when the
peek sees another message or the whole chunk is `NonTerminal`. -/
def writeMessagesLoop : List Json → Bool → String
  | [], _ => ""
  | m :: rest, nt =>
      Json.render m ++ (if !rest.isEmpty || nt then "," else "") ++ writeMessagesLoop rest nt

/-- Mirror of `write_message_chunk` (`src/main.rs:90-105`), returning the
bytes written instead of writing them to a `BufWriter`. -/
def write_message_chunk (chunk : MessageChunk) : String :=
  writeMessagesLoop chunk.messages chunk.isNonTerminal

/-- Observable effect of the program, in program order: one HTTP request
(carrying the cursor query parameter, `none` on the first call) or one write
of bytes to stdout. -/
inductive Event where
  | fetch (cursor : Option String) : Event
  | write (bytes : String) : Event
deriving DecidableEq, Repr

/-- Bytes a list of events leaves on stdout. -/
def outputOf : List Event → String
  | [] => ""
  | Event.write s :: evs => s ++ outputOf evs
  | Event.fetch _ :: evs => outputOf evs

/-- Cursors of the HTTP requests among a list of events, in order. -/
def requestsOf : List Event → List (Option String)
  | [] => []
  | Event.fetch c :: evs => c :: requestsOf evs
  | Event.write _ :: evs => requestsOf evs

/-- One iteration of the `while let` loop of `main` (`src/main.rs:151-154`):
fetch with the cursor of the previous chunk (consuming the next scripted
response), convert, write the chunk, and loop while the new chunk is
`NonTerminal`.  Returns the events in effect order together with the
program result. -/
def runFrom : List SlackResponse → String → List Event × Except String Unit
  | [], cursor => ([Event.fetch (some cursor)], Except.error transportErrorMsg)
  | r :: rest, cursor =>
      match MessageChunk.tryFrom r with
      | Except.error e => ([Event.fetch (some cursor)], Except.error e)
      | Except.ok chunk =>
          match chunk with
          | MessageChunk.terminal msgs =>
              ([Event.fetch (some cursor),
                Event.write (write_message_chunk (MessageChunk.terminal msgs))],
               Except.ok ())
          | MessageChunk.nonTerminal msgs next =>
              (Event.fetch (some cursor)
                 :: Event.write (write_message_chunk (MessageChunk.nonTerminal msgs next))
                 :: (runFrom rest next).1,
               (runFrom rest next).2)

/-- Mirror of `main` (`src/main.rs:134-159`) against a scripted server:
fetch the initial chunk (no cursor), then write the opening bracket, the
first chunk, the loop of `runFrom`, and the closing bracket.  On failure the
events already performed are kept and the closing bracket is never
written. -/
def mainRun (responses : List SlackResponse) : List Event × Except String Unit :=
  match responses with
  | [] => ([Event.fetch none], Except.error transportErrorMsg)
  | r :: rest =>
      match MessageChunk.tryFrom r with
      | Except.error e => ([Event.fetch none], Except.error e)
      | Except.ok chunk =>
          let pre := [Event.fetch none, Event.write "[",
                      Event.write (write_message_chunk chunk)]
          match chunk with
          | MessageChunk.terminal _ => (pre ++ [Event.write "]"], Except.ok ())
          | MessageChunk.nonTerminal _ next =>
              match (runFrom rest next).2 with
              | Except.ok _ =>
                  (pre ++ (runFrom rest next).1 ++ [Event.write "]"], Except.ok ())
              | Except.error e => (pre ++ (runFrom rest next).1, Except.error e)

/-- Bytes the program leaves on stdout for a given response script. -/
def mainOutput (responses : List SlackResponse) : String :=
  outputOf (mainRun responses).1

/-- Number of comma bytes in a string. -/
def commaCount (s : String) : Nat :=
  s.data.count ','

/-- Concatenation of the messages of every scripted response, in request
order. -/
def chainMessages (responses : List SlackResponse) : List Json :=
  (responses.map SlackResponse.messages).flatten

/-- A well-formed response chain: every response but the last has
`ok == true`, `has_more == true` and carries metadata, and the last has
`ok == true` and `has_more == false`. -/
def validChain : List SlackResponse → Bool
  | [] => false
  | [r] => r.ok && !r.has_more
  | r :: rest => r.ok && r.has_more && r.response_metadata.isSome && validChain rest

/-- A script exhibiting the trailing-comma defect: one message, then an
empty terminal page. -/
def scriptTrailing : List SlackResponse :=
  [⟨true, [Json.str "m1"], true, some ⟨"c1"⟩, none⟩,
   ⟨true, [], false, none, none⟩]

/-- The three simulated pages of the spec: two messages with cursor c1, one
message with cursor c2, then an empty terminal page. -/
def script3 : List SlackResponse :=
  [⟨true, [Json.str "m1", Json.str "m2"], true, some ⟨"c1"⟩, none⟩,
   ⟨true, [Json.str "m3"], true, some ⟨"c2"⟩, none⟩,
   ⟨true, [], false, none, none⟩]

/-- A single terminal page carrying one message. -/
def scriptOnePage : List SlackResponse :=
  [⟨true, [Json.str "m1"], false, none, none⟩]

/-- Scan of an event list deciding whether a write of the opening bracket
occurs strictly before the first fetch. -/
def bracketBeforeFirstFetch : List Event → Bool
  | [] => false
  | Event.fetch _ :: _ => false
  | Event.write s :: evs => if s = "[" then true else bracketBeforeFirstFetch evs

/-- Big-step relation mirroring one iteration of the `while let` loop of
`main`: `LoopRel script cursor (events, result)` holds when running the loop
from a fetch with the given cursor against the given script performs those
events and ends with that result.  This is `runFrom` as a relation, used to
state determinism of the run. -/
inductive LoopRel : List SlackResponse → String → List Event × Except String Unit → Prop where
  | exhausted (cursor : String) :
      LoopRel [] cursor ([Event.fetch (some cursor)], Except.error transportErrorMsg)
  | failed (r : SlackResponse) (rest : List SlackResponse) (cursor e : String) :
      MessageChunk.tryFrom r = Except.error e →
      LoopRel (r :: rest) cursor ([Event.fetch (some cursor)], Except.error e)
  | terminal (r : SlackResponse) (rest : List SlackResponse) (cursor : String)
      (msgs : List Json) :
      MessageChunk.tryFrom r = Except.ok (MessageChunk.terminal msgs) →
      LoopRel (r :: rest) cursor
        ([Event.fetch (some cursor),
          Event.write (write_message_chunk (MessageChunk.terminal msgs))],
         Except.ok ())
  | more (r : SlackResponse) (rest : List SlackResponse) (cursor : String)
      (msgs : List Json) (next : String) (evs : List Event)
      (res : Except String Unit) :
      MessageChunk.tryFrom r = Except.ok (MessageChunk.nonTerminal msgs next) →
      LoopRel rest next (evs, res) →
      LoopRel (r :: rest) cursor
        (Event.fetch (some cursor)
           :: Event.write (write_message_chunk (MessageChunk.nonTerminal msgs next))
           :: evs,
         res)

/-- Big-step relation mirroring the whole of `main`: initial fetch with no
cursor, opening bracket, first chunk, the loop, and the closing bracket on
success. -/
inductive RunRel : List SlackResponse → List Event × Except String Unit → Prop where
  | exhausted : RunRel [] ([Event.fetch none], Except.error transportErrorMsg)
  | failed (r : SlackResponse) (rest : List SlackResponse) (e : String) :
      MessageChunk.tryFrom r = Except.error e →
      RunRel (r :: rest) ([Event.fetch none], Except.error e)
  | terminal (r : SlackResponse) (rest : List SlackResponse) (msgs : List Json) :
      MessageChunk.tryFrom r = Except.ok (MessageChunk.terminal msgs) →
      RunRel (r :: rest)
        ([Event.fetch none, Event.write "[",
          Event.write (write_message_chunk (MessageChunk.terminal msgs)),
          Event.write "]"],
         Except.ok ())
  | moreOk (r : SlackResponse) (rest : List SlackResponse) (msgs : List Json)
      (next : String) (evs : List Event) :
      MessageChunk.tryFrom r = Except.ok (MessageChunk.nonTerminal msgs next) →
      LoopRel rest next (evs, Except.ok ()) →
      RunRel (r :: rest)
        ([Event.fetch none, Event.write "[",
          Event.write (write_message_chunk (MessageChunk.nonTerminal msgs next))]
           ++ evs ++ [Event.write "]"],
         Except.ok ())
  | moreErr (r : SlackResponse) (rest : List SlackResponse) (msgs : List Json)
      (next : String) (evs : List Event) (e : String) :
      MessageChunk.tryFrom r = Except.ok (MessageChunk.nonTerminal msgs next) →
      LoopRel rest next (evs, Except.error e) →
      RunRel (r :: rest)
        ([Event.fetch none, Event.write "[",
          Event.write (write_message_chunk (MessageChunk.nonTerminal msgs next))]
           ++ evs,
         Except.error e)

/-- Mirror of `impl Iterator for MessageChunk` in `src/slack.rs:100-109`:
popping the next message from the chunk's `IntoIter`, leaving the rest of
the chunk unchanged. -/
def MessageChunk.nextMsg : MessageChunk → Option Json × MessageChunk
  | .nonTerminal [] c => (none, .nonTerminal [] c)
  | .nonTerminal (m :: ms) c => (some m, .nonTerminal ms c)
  | .terminal [] => (none, .terminal [])
  | .terminal (m :: ms) => (some m, .terminal ms)

/-- State of the `Messages` fallible iterator of `src/slack.rs:66-69`
against a scripted server: the scripted responses not yet served, the
current chunk, and the log of cursors carried by the fetches performed so
far (`none` for the initial fetch). -/
structure MessagesState where
  script : List SlackResponse
  current : MessageChunk
  fetched : List (Option String)

/-- Mirror of `Slack::messages` (`src/slack.rs:42-49`): perform the initial
fetch with no cursor and hold the resulting chunk. -/
def slackMessages (script : List SlackResponse) : Except String MessagesState :=
  match script with
  | [] => Except.error transportErrorMsg
  | r :: rest =>
      match MessageChunk.tryFrom r with
      | Except.error e => Except.error e
      | Except.ok chunk => Except.ok ⟨rest, chunk, [none]⟩

/-- Mirror of `<Messages as FallibleIterator>::next` (`src/slack.rs:75-86`):
yield the current chunk's next message if any; on an exhausted `Terminal`
chunk signal end of sequence; on an exhausted `NonTerminal` chunk fetch the
next chunk with the stored cursor and return that new chunk's first pop
(which is `none` when the fetched chunk is empty). -/
def messagesNext (s : MessagesState) : Except String (Option Json × MessagesState) :=
  match s.current.nextMsg with
  | (some m, c) => Except.ok (some m, ⟨s.script, c, s.fetched⟩)
  | (none, _) =>
      match s.current with
      | MessageChunk.terminal _ => Except.ok (none, s)
      | MessageChunk.nonTerminal _ cursor =>
          match s.script with
          | [] => Except.error transportErrorMsg
          | r :: rest =>
              match MessageChunk.tryFrom r with
              | Except.error e => Except.error e
              | Except.ok newChunk =>
                  let popped := newChunk.nextMsg
                  Except.ok (popped.1, ⟨rest, popped.2, s.fetched ++ [some cursor]⟩)

/-- Driver pulling the fallible iterator until it signals end of sequence,
an error, or the fuel runs out, collecting the messages yielded. -/
def collectMessages : Nat → MessagesState → Except String (List Json × MessagesState)
  | 0, _ => Except.error "out of fuel"
  | fuel + 1, s =>
      match messagesNext s with
      | Except.error e => Except.error e
      | Except.ok (none, sEnd) => Except.ok ([], sEnd)
      | Except.ok (some m, s2) =>
          match collectMessages fuel s2 with
          | Except.error e => Except.error e
          | Except.ok (ms, sEnd) => Except.ok (m :: ms, sEnd)

/-- A script with an empty non-terminal middle page: one message, then an
empty page that still has `has_more == true`, then a terminal page carrying
a further message. -/
def scriptEmptyMiddle : List SlackResponse :=
  [⟨true, [Json.str "m1"], true, some ⟨"c1"⟩, none⟩,
   ⟨true, [], true, some ⟨"c2"⟩, none⟩,
   ⟨true, [Json.str "m2"], false, none, none⟩]

/-- The protocol-error message is never an API-error message: the two differ
at character 15 (additional vs data), so no error string makes them
coincide. -/
theorem missingCursor_not_apiError (s : String) :
    missingCursorMsg ≠ "Error fetching data from the Slack API: " ++ s := by
  intro h
  have hdata : missingCursorMsg.data =
      "Error fetching data from the Slack API: ".data ++ s.data := by
    rw [h]; rfl
  have h15 : missingCursorMsg.data[15]? =
      ("Error fetching data from the Slack API: ".data ++ s.data)[15]? :=
    congrArg (fun l => l[15]?) hdata
  rw [List.getElem?_append, if_pos (by decide)] at h15
  exact absurd h15 (by decide)

/-- C1: the spec promises that for every valid response chain the emitted
bytes form a syntactically valid JSON array holding exactly the
concatenation of every chunk's messages.  The code violates this: on a
chain whose final `has_more == false` page is empty, `write_message_chunk`
has already appended a comma after the last message of the preceding
`NonTerminal` chunk, so the run succeeds but stdout carries a trailing
comma and is not the serialization of the message array. -/
theorem trailing_comma_breaks_array_shape :
    (mainRun scriptTrailing).2 = Except.ok () ∧
    mainOutput scriptTrailing = "[\"m1\",]" ∧
    (Json.arr (chainMessages scriptTrailing)).render = "[\"m1\"]" ∧
    mainOutput scriptTrailing ≠ (Json.arr (chainMessages scriptTrailing)).render :=
  ⟨rfl, rfl, rfl, by decide⟩

/-- C2: the spec promises exactly N-1 comma separators for N total
messages.  On the trailing-comma chain the code emits 1 comma for N = 1
messages (it should emit 0). -/
theorem comma_count_exceeds_messages :
    (mainRun scriptTrailing).2 = Except.ok () ∧
    (chainMessages scriptTrailing).length = 1 ∧
    commaCount (mainOutput scriptTrailing) = 1 :=
  ⟨rfl, rfl, by decide⟩

/-- C3: on the spec's own three-page simulation the request sequence is as
claimed (three calls, the second and third carrying cursors c1 and c2), but
the final output is the seven messages-and-commas string with a trailing
comma, not the two-comma array the spec states. -/
theorem three_page_run_trace :
    (mainRun script3).2 = Except.ok () ∧
    requestsOf (mainRun script3).1 = [none, some "c1", some "c2"] ∧
    (requestsOf (mainRun script3).1).length = 3 ∧
    mainOutput script3 = "[\"m1\",\"m2\",\"m3\",]" ∧
    commaCount (mainOutput script3) = 3 :=
  ⟨rfl, by decide, rfl, rfl, by decide⟩

/-- C5: an `ok == true` response with `has_more == true` and no metadata
always converts to the protocol error whose message mentions the missing
cursor, whatever its messages are; no chunk is produced. -/
theorem missing_cursor_is_protocol_error (r : SlackResponse)
    (hok : r.ok = true) (hmore : r.has_more = true)
    (hmeta : r.response_metadata = none) :
    MessageChunk.tryFrom r = Except.error missingCursorMsg ∧
    ∃ pre post, missingCursorMsg = pre ++ "cursor" ++ post := by
  refine ⟨?_, "Error fetching additional data: Slack API response missing ", "", rfl⟩
  simp [MessageChunk.tryFrom, hok, hmore, hmeta]

/-- Witness for the missing-cursor claim at a concrete two-message
response. -/
theorem missing_cursor_is_protocol_error_witness :
    MessageChunk.tryFrom ⟨true, [Json.null, Json.null], true, none, none⟩ =
      Except.error missingCursorMsg ∧
    ∃ pre post, missingCursorMsg = pre ++ "cursor" ++ post :=
  missing_cursor_is_protocol_error ⟨true, [Json.null, Json.null], true, none, none⟩
    rfl rfl rfl

/-- C6: an `ok == false` response converts to the API error carrying the
response's error string, or the placeholder Unknown when absent; in
particular a first response with error invalid_auth makes the whole run
fail with a message containing invalid_auth. -/
theorem not_ok_is_api_error (r : SlackResponse) (rest : List SlackResponse)
    (h : r.ok = false) :
    MessageChunk.tryFrom r = Except.error (apiErrorMsg r.error) ∧
    (r.error = none →
      MessageChunk.tryFrom r =
        Except.error ("Error fetching data from the Slack API: " ++ "Unknown")) ∧
    (r.error = some "invalid_auth" →
      (mainRun (r :: rest)).2 =
        Except.error ("Error fetching data from the Slack API: " ++ "invalid_auth") ∧
      ∃ pre post, apiErrorMsg r.error = pre ++ "invalid_auth" ++ post) := by
  refine ⟨?_, ?_, ?_⟩
  · simp [MessageChunk.tryFrom, h]
  · intro he
    simp [MessageChunk.tryFrom, h, apiErrorMsg, he]
  · intro he
    refine ⟨?_, "Error fetching data from the Slack API: ", "", by rw [he]; rfl⟩
    simp [mainRun, MessageChunk.tryFrom, h, apiErrorMsg, he]

/-- Witness for the API-error claim: the run over a single invalid_auth
response fails with the invalid_auth message. -/
theorem not_ok_is_api_error_witness :
    (mainRun [⟨false, [], false, none, some "invalid_auth"⟩]).2 =
      Except.error ("Error fetching data from the Slack API: " ++ "invalid_auth") :=
  ((not_ok_is_api_error ⟨false, [], false, none, some "invalid_auth"⟩ [] rfl).2.2 rfl).1

/-- C8 counterexample: on the one-page script the first effect of the run
is the initial HTTP fetch, and no write of the opening bracket precedes it,
refuting the claim that the bracket is written before any fetch. -/
theorem bracket_not_before_first_fetch :
    bracketBeforeFirstFetch (mainRun scriptOnePage).1 = false ∧
    (mainRun scriptOnePage).1.head? = some (Event.fetch none) :=
  ⟨rfl, rfl⟩

/-- C8 amended: the opening bracket is written immediately after the
initial fetch, as soon as its response converts to a chunk, and therefore
before every message write and every subsequent fetch. -/
theorem bracket_written_right_after_initial_fetch (r : SlackResponse)
    (rest : List SlackResponse) (chunk : MessageChunk)
    (h : MessageChunk.tryFrom r = Except.ok chunk) :
    ∃ evs, (mainRun (r :: rest)).1 = Event.fetch none :: Event.write "[" :: evs := by
  cases chunk with
  | terminal msgs =>
      exact ⟨[Event.write (write_message_chunk (MessageChunk.terminal msgs)),
              Event.write "]"], by simp [mainRun, h]⟩
  | nonTerminal msgs next =>
      cases hres : (runFrom rest next).2 with
      | ok u =>
          exact ⟨Event.write (write_message_chunk (MessageChunk.nonTerminal msgs next))
                   :: (runFrom rest next).1 ++ [Event.write "]"],
                 by simp [mainRun, h, hres]⟩
      | error e =>
          exact ⟨Event.write (write_message_chunk (MessageChunk.nonTerminal msgs next))
                   :: (runFrom rest next).1,
                 by simp [mainRun, h, hres]⟩

/-- Witness for the amended bracket claim at the one-page script. -/
theorem bracket_written_right_after_initial_fetch_witness :
    ∃ evs, (mainRun scriptOnePage).1 =
      Event.fetch none :: Event.write "[" :: evs :=
  bracket_written_right_after_initial_fetch
    ⟨true, [Json.str "m1"], false, none, none⟩ []
    (MessageChunk.terminal [Json.str "m1"]) rfl

/-- C10: the conversion checks `ok` first.  An `ok == false` response
yields the API error even when `has_more == true` with no metadata, and an
`ok == true` response can never yield an API-error message (its only
possible failure is the missing-cursor protocol error). -/
theorem ok_checked_before_cursor (r : SlackResponse) :
    (r.ok = false → MessageChunk.tryFrom r = Except.error (apiErrorMsg r.error)) ∧
    (r.ok = true → ∀ s, MessageChunk.tryFrom r ≠
        Except.error ("Error fetching data from the Slack API: " ++ s)) := by
  constructor
  · intro h
    simp [MessageChunk.tryFrom, h]
  · intro hok s hcontra
    cases hm : r.has_more with
    | false => simp [MessageChunk.tryFrom, hok, hm] at hcontra
    | true =>
        cases hmd : r.response_metadata with
        | none =>
            simp [MessageChunk.tryFrom, hok, hm, hmd] at hcontra
            exact missingCursor_not_apiError s hcontra
        | some md => simp [MessageChunk.tryFrom, hok, hm, hmd] at hcontra

/-- Witness for the ok-first claim: a response that is both not ok and
missing its cursor fails with the API error, not the protocol error. -/
theorem ok_checked_before_cursor_witness :
    MessageChunk.tryFrom ⟨false, [], true, none, none⟩ =
      Except.error (apiErrorMsg none) :=
  (ok_checked_before_cursor ⟨false, [], true, none, none⟩).1 rfl

/-- C4: the spec says the message sequence yields every message of every
fetched chunk even across empty intermediate chunks.  The code violates
this: after exhausting the first chunk, `Messages::next` fetches the next
chunk and returns that chunk's first pop directly, so an empty
`NonTerminal` middle page makes the pull return `Ok(None)`, ending the
sequence with the current chunk still `NonTerminal`, the terminal page
never fetched (cursor c2 unused), and its message m2 silently dropped. -/
theorem empty_middle_chunk_ends_sequence_early :
    (slackMessages scriptEmptyMiddle).bind (collectMessages 10) =
      Except.ok ([Json.str "m1"],
        ⟨[⟨true, [Json.str "m2"], false, none, none⟩],
         MessageChunk.nonTerminal [] "c2", [none, some "c1"]⟩) ∧
    chainMessages scriptEmptyMiddle = [Json.str "m1", Json.str "m2"] :=
  ⟨rfl, rfl⟩

/-- Concatenation of the request cursors of two event lists. -/
theorem requestsOf_append (l1 l2 : List Event) :
    requestsOf (l1 ++ l2) = requestsOf l1 ++ requestsOf l2 := by
  induction l1 with
  | nil => rfl
  | cons e l ih => cases e <;> simp [requestsOf, ih]

/-- The last response of a valid chain is ok and has no further pages. -/
theorem validChain_last (rs : List SlackResponse) (h : validChain rs = true) :
    ∀ r, rs.getLast? = some r → r.ok = true ∧ r.has_more = false := by
  induction rs with
  | nil => intro r hr; simp at hr
  | cons a rest ih =>
      intro r hr
      cases rest with
      | nil =>
          simp [List.getLast?] at hr
          subst hr
          simp only [validChain, Bool.and_eq_true, Bool.not_eq_true'] at h
          exact h
      | cons b rest2 =>
          simp only [validChain, Bool.and_eq_true, and_assoc] at h
          exact ih h.2.2.2 r (by simpa [List.getLast?_cons_cons] using hr)

/-- One-step unfolding of the loop at a response converting to a
`NonTerminal` chunk. -/
theorem runFrom_cons_nonTerminal (r : SlackResponse) (rest : List SlackResponse)
    (cursor : String) (msgs : List Json) (next : String)
    (hc : MessageChunk.tryFrom r = Except.ok (MessageChunk.nonTerminal msgs next)) :
    runFrom (r :: rest) cursor =
      (Event.fetch (some cursor)
         :: Event.write (write_message_chunk (MessageChunk.nonTerminal msgs next))
         :: (runFrom rest next).1,
       (runFrom rest next).2) := by
  simp [runFrom, hc]

/-- One-step unfolding of the run at a first response converting to a
`NonTerminal` chunk whose loop succeeds. -/
theorem mainRun_cons_nonTerminal_ok (r : SlackResponse) (rest : List SlackResponse)
    (msgs : List Json) (next : String)
    (hc : MessageChunk.tryFrom r = Except.ok (MessageChunk.nonTerminal msgs next))
    (hres : (runFrom rest next).2 = Except.ok ()) :
    mainRun (r :: rest) =
      ([Event.fetch none, Event.write "[",
        Event.write (write_message_chunk (MessageChunk.nonTerminal msgs next))]
         ++ (runFrom rest next).1 ++ [Event.write "]"],
       Except.ok ()) := by
  simp [mainRun, hc, hres]

/-- Loop behaviour on a valid tail: the loop consumes exactly the chain,
succeeds, and performs one request per chain element, even when surplus
scripted responses remain after the terminal page. -/
theorem runFrom_validChain (rs : List SlackResponse) :
    validChain rs = true → ∀ (extra : List SlackResponse) (cursor : String),
      (runFrom (rs ++ extra) cursor).2 = Except.ok () ∧
      (requestsOf (runFrom (rs ++ extra) cursor).1).length = rs.length := by
  induction rs with
  | nil => intro h; simp [validChain] at h
  | cons r rest ih =>
      intro h extra cursor
      cases rest with
      | nil =>
          simp only [validChain, Bool.and_eq_true, Bool.not_eq_true'] at h
          have hc : MessageChunk.tryFrom r =
              Except.ok (MessageChunk.terminal r.messages) := by
            simp [MessageChunk.tryFrom, h.1, h.2]
          simp [runFrom, hc, requestsOf]
      | cons r2 rest2 =>
          simp only [validChain, Bool.and_eq_true, and_assoc] at h
          obtain ⟨hok, hmore, hmeta, htail⟩ := h
          obtain ⟨md, hmd⟩ := Option.isSome_iff_exists.mp hmeta
          have hc : MessageChunk.tryFrom r =
              Except.ok (MessageChunk.nonTerminal r.messages md.next_cursor) := by
            simp [MessageChunk.tryFrom, hok, hmore, hmd]
          have hrec := ih htail extra md.next_cursor
          rw [show (r :: r2 :: rest2) ++ extra = r :: ((r2 :: rest2) ++ extra) from rfl,
              runFrom_cons_nonTerminal r ((r2 :: rest2) ++ extra) cursor
                r.messages md.next_cursor hc]
          refine ⟨hrec.1, ?_⟩
          simp only [requestsOf, List.length_cons]
          rw [hrec.2]
          simp

/-- Run behaviour on a valid chain: success and one request per page. -/
theorem mainRun_validChain (rs : List SlackResponse) (h : validChain rs = true)
    (extra : List SlackResponse) :
    (mainRun (rs ++ extra)).2 = Except.ok () ∧
    (requestsOf (mainRun (rs ++ extra)).1).length = rs.length := by
  cases rs with
  | nil => simp [validChain] at h
  | cons r rest =>
      cases rest with
      | nil =>
          simp only [validChain, Bool.and_eq_true, Bool.not_eq_true'] at h
          have hc : MessageChunk.tryFrom r =
              Except.ok (MessageChunk.terminal r.messages) := by
            simp [MessageChunk.tryFrom, h.1, h.2]
          refine ⟨?_, ?_⟩ <;>
            simp [mainRun, hc, requestsOf, requestsOf_append]
      | cons r2 rest2 =>
          simp only [validChain, Bool.and_eq_true, and_assoc] at h
          obtain ⟨hok, hmore, hmeta, htail⟩ := h
          obtain ⟨md, hmd⟩ := Option.isSome_iff_exists.mp hmeta
          have hc : MessageChunk.tryFrom r =
              Except.ok (MessageChunk.nonTerminal r.messages md.next_cursor) := by
            simp [MessageChunk.tryFrom, hok, hmore, hmd]
          have hrec := runFrom_validChain (r2 :: rest2) htail extra md.next_cursor
          rw [show (r :: r2 :: rest2) ++ extra = r :: ((r2 :: rest2) ++ extra) from rfl,
              mainRun_cons_nonTerminal_ok r ((r2 :: rest2) ++ extra)
                r.messages md.next_cursor hc hrec.1]
          refine ⟨rfl, ?_⟩
          have h2 := hrec.2
          simp only [List.length_cons] at h2
          simp [requestsOf, requestsOf_append]
          exact h2

/-- C7: on a valid chain (every page ok, all but the last with a cursor and
more pages, the last with `has_more == false`) the run succeeds, performs
exactly one request per page even when surplus responses sit behind the
terminal page, and the last response converts to a `Terminal` chunk. -/
theorem valid_chain_terminates (rs extra : List SlackResponse)
    (h : validChain rs = true) :
    (mainRun (rs ++ extra)).2 = Except.ok () ∧
    (requestsOf (mainRun (rs ++ extra)).1).length = rs.length ∧
    (∀ r, rs.getLast? = some r →
      MessageChunk.tryFrom r = Except.ok (MessageChunk.terminal r.messages)) := by
  refine ⟨(mainRun_validChain rs h extra).1, (mainRun_validChain rs h extra).2, ?_⟩
  intro r hr
  obtain ⟨hok, hmore⟩ := validChain_last rs h r hr
  simp [MessageChunk.tryFrom, hok, hmore]

/-- Witness for the termination claim at the three-page script. -/
theorem valid_chain_terminates_witness :
    (mainRun (script3 ++ [])).2 = Except.ok () ∧
    (requestsOf (mainRun (script3 ++ [])).1).length = script3.length :=
  ⟨(valid_chain_terminates script3 [] rfl).1,
   (valid_chain_terminates script3 [] rfl).2.1⟩

/-- The loop relation is sound for the loop function: a derivation computes
exactly `runFrom`. -/
theorem loopRel_runFrom (rs : List SlackResponse) (cursor : String)
    (o : List Event × Except String Unit) (h : LoopRel rs cursor o) :
    runFrom rs cursor = o := by
  induction h with
  | exhausted cursor => rfl
  | failed r rest cursor e he => simp [runFrom, he]
  | terminal r rest cursor msgs ht => simp [runFrom, ht]
  | more r rest cursor msgs next evs res hc hl ih => simp [runFrom, hc, ih]

/-- The loop relation is complete for the loop function. -/
theorem loopRel_complete (rs : List SlackResponse) (cursor : String) :
    LoopRel rs cursor (runFrom rs cursor) := by
  induction rs generalizing cursor with
  | nil => exact LoopRel.exhausted cursor
  | cons r rest ih =>
      cases hc : MessageChunk.tryFrom r with
      | error e =>
          have heq : runFrom (r :: rest) cursor =
              ([Event.fetch (some cursor)], Except.error e) := by
            simp [runFrom, hc]
          rw [heq]
          exact LoopRel.failed r rest cursor e hc
      | ok chunk =>
          cases chunk with
          | terminal msgs =>
              have heq : runFrom (r :: rest) cursor =
                  ([Event.fetch (some cursor),
                    Event.write (write_message_chunk (MessageChunk.terminal msgs))],
                   Except.ok ()) := by
                simp [runFrom, hc]
              rw [heq]
              exact LoopRel.terminal r rest cursor msgs hc
          | nonTerminal msgs next =>
              cases hr : runFrom rest next with
              | mk evs res =>
                  have heq : runFrom (r :: rest) cursor =
                      (Event.fetch (some cursor)
                         :: Event.write
                              (write_message_chunk (MessageChunk.nonTerminal msgs next))
                         :: evs,
                       res) := by
                    simp [runFrom, hc, hr]
                  rw [heq]
                  exact LoopRel.more r rest cursor msgs next evs res hc (hr ▸ ih next)

/-- The run relation is sound for the run function: a derivation computes
exactly `mainRun`. -/
theorem runRel_mainRun (rs : List SlackResponse)
    (o : List Event × Except String Unit) (h : RunRel rs o) : mainRun rs = o := by
  cases h with
  | exhausted => rfl
  | failed r rest e he => simp [mainRun, he]
  | terminal r rest msgs ht => simp [mainRun, ht]
  | moreOk r rest msgs next evs hc hl =>
      have hr := loopRel_runFrom rest next (evs, Except.ok ()) hl
      simp [mainRun, hc, hr]
  | moreErr r rest msgs next evs e hc hl =>
      have hr := loopRel_runFrom rest next (evs, Except.error e) hl
      simp [mainRun, hc, hr]

/-- The run relation is complete for the run function. -/
theorem runRel_complete (rs : List SlackResponse) : RunRel rs (mainRun rs) := by
  cases rs with
  | nil => exact RunRel.exhausted
  | cons r rest =>
      cases hc : MessageChunk.tryFrom r with
      | error e =>
          have heq : mainRun (r :: rest) = ([Event.fetch none], Except.error e) := by
            simp [mainRun, hc]
          rw [heq]
          exact RunRel.failed r rest e hc
      | ok chunk =>
          cases chunk with
          | terminal msgs =>
              have heq : mainRun (r :: rest) =
                  ([Event.fetch none, Event.write "[",
                    Event.write (write_message_chunk (MessageChunk.terminal msgs)),
                    Event.write "]"],
                   Except.ok ()) := by
                simp [mainRun, hc]
              rw [heq]
              exact RunRel.terminal r rest msgs hc
          | nonTerminal msgs next =>
              cases hr : runFrom rest next with
              | mk evs res =>
                  cases res with
                  | ok u =>
                      have heq : mainRun (r :: rest) =
                          ([Event.fetch none, Event.write "[",
                            Event.write
                              (write_message_chunk (MessageChunk.nonTerminal msgs next))]
                             ++ evs ++ [Event.write "]"],
                           Except.ok ()) := by
                        simp [mainRun, hc, hr]
                      rw [heq]
                      exact RunRel.moreOk r rest msgs next evs hc
                        (hr ▸ loopRel_complete rest next)
                  | error e =>
                      have heq : mainRun (r :: rest) =
                          ([Event.fetch none, Event.write "[",
                            Event.write
                              (write_message_chunk (MessageChunk.nonTerminal msgs next))]
                             ++ evs,
                           Except.error e) := by
                        simp [mainRun, hc, hr]
                      rw [heq]
                      exact RunRel.moreErr r rest msgs next evs e hc
                        (hr ▸ loopRel_complete rest next)

/-- C9: the run is deterministic in the scripted responses: any two runs
over the same script perform the same events and leave byte-identical
output on stdout. -/
theorem run_deterministic (rs : List SlackResponse)
    (o1 o2 : List Event × Except String Unit)
    (h1 : RunRel rs o1) (h2 : RunRel rs o2) :
    outputOf o1.1 = outputOf o2.1 ∧ o1 = o2 := by
  have e1 := runRel_mainRun rs o1 h1
  have e2 := runRel_mainRun rs o2 h2
  subst e1
  subst e2
  exact ⟨rfl, rfl⟩

/-- Witness for determinism: two derivations of the three-page run agree. -/
theorem run_deterministic_witness :
    outputOf (mainRun script3).1 = outputOf (mainRun script3).1 ∧
    mainRun script3 = mainRun script3 :=
  run_deterministic script3 (mainRun script3) (mainRun script3)
    (runRel_complete script3) (runRel_complete script3)

end Slump
